import Mathlib

/-!
Verification development for the resept browser extension
(FlopieUtd/resept-extension): a shallow embedding of the cross-context
token lifecycle manager — the background Refresh Coordinator
(src/unnamed/part_000 and part_001), the popup Session Facade
(src/popup.js, src/unnamed/part_003, part_004) and the Login Flow
poll loop — together with theorems about the embedded operations.

Conventions of the embedding:
* Machine time is modelled in integer milliseconds; persisted expiry
  values are strings holding epoch seconds, exactly as the store keys
  `jwtToken` / `refreshToken` / `tokenExpiresAt` hold them.
* `browser.storage.local` is a record of three optional strings.  A
  field of `none` models the key being absent or holding a JavaScript
  null/undefined value (all consumers only test truthiness, under
  which these coincide; JSON nulls stored explicitly are conflated
  with absent keys).
* Network I/O is passed in as an explicit outcome value: what the
  single `fetch` of the operation returned (an HTTP status together
  with the parsed JSON body, `none` standing for a body on which
  `response.json()` / `JSON.parse` throws) or a network error.
-/

namespace Resept

/-- JavaScript truthiness of a possibly-absent string value:
`undefined`, `null` and `""` are falsy, every other string truthy. -/
def truthy : Option String → Bool
  | none => false
  | some s => s ≠ ""

/-! ## JavaScript `parseInt`

`isTokenExpired` feeds the stored `tokenExpiresAt` string through
`parseInt(expiresAt)` (no radix argument).  We model `parseInt` for
string inputs: leading whitespace is skipped, an optional single sign
is read, a `0x`/`0X` prefix switches to hexadecimal, and the maximal
run of digits is converted; if that run is empty the result is NaN,
modelled as `none`. -/

/-- Value of a decimal digit character, `none` on a non-digit. -/
def decDigitVal (c : Char) : Option Nat :=
  if '0' ≤ c ∧ c ≤ '9' then some (c.toNat - 48) else none

/-- Value of a hexadecimal digit character, `none` on a non-digit. -/
def hexDigitVal (c : Char) : Option Nat :=
  if '0' ≤ c ∧ c ≤ '9' then some (c.toNat - 48)
  else if 'a' ≤ c ∧ c ≤ 'f' then some (c.toNat - 87)
  else if 'A' ≤ c ∧ c ≤ 'F' then some (c.toNat - 55)
  else none

/-- Accumulate the maximal leading run of digits (with respect to the
digit-reading function `digit`) at radix `radix` onto `acc`; stops at
the first non-digit, as `parseInt` does. -/
def parseRun (digit : Char → Option Nat) (radix : Nat) : List Char → Nat → Nat
  | [], acc => acc
  | c :: cs, acc =>
    match digit c with
    | some d => parseRun digit radix cs (acc * radix + d)
    | none => acc

/-- Whitespace skipped by `parseInt` before reading the number
(ASCII whitespace; the further Unicode space code points JavaScript
also skips never occur in the stored values). -/
def isJsWhitespace (c : Char) : Bool :=
  c = ' ' ∨ c = '\t' ∨ c = '\n' ∨ c = '\r' ∨ c = '\x0b' ∨ c = '\x0c'

/-- JavaScript `parseInt(s)` (radix unspecified): `some n` for a
number result, `none` for NaN.  Inputs far outside the IEEE-double
exact-integer range lose precision in JavaScript; the stored epoch
values are far below that, so the model keeps exact integers. -/
def jsParseInt (s : String) : Option Int :=
  let cs := s.toList.dropWhile isJsWhitespace
  let signAndRest : Bool × List Char :=
    match cs with
    | '-' :: r => (true, r)
    | '+' :: r => (false, r)
    | _ => (false, cs)
  let neg := signAndRest.1
  let body := signAndRest.2
  let digitRadixRest : (Char → Option Nat) × Nat × List Char :=
    match body with
    | '0' :: c :: r =>
      if c = 'x' ∨ c = 'X' then (hexDigitVal, 16, r)
      else (decDigitVal, 10, body)
    | _ => (decDigitVal, 10, body)
  let digit := digitRadixRest.1
  let radix := digitRadixRest.2.1
  let rest := digitRadixRest.2.2
  match rest with
  | [] => none
  | c :: _ =>
    match digit c with
    | some _ =>
      let n : Nat := parseRun digit radix rest 0
      some (if neg then -(n : Int) else (n : Int))
    | none => none

/-! ## Token expiry predicate

Both contexts define the same `isTokenExpired` modulo the buffer
constant: the background coordinator uses `TOKEN_BUFFER` (10 minutes),
the popup facade uses `CONFIG.tokenBuffer` (5 minutes).

```js
const isTokenExpired = (expiresAt) => {
  if (!expiresAt) return true;
  const expirationTime = new Date(parseInt(expiresAt) * 1000);
  const now = new Date();
  const bufferTime = new Date(now.getTime() + TOKEN_BUFFER);
  return expirationTime <= bufferTime;
};
```

When `parseInt` yields NaN, `new Date(NaN)` is an Invalid Date and the
`<=` comparison evaluates to false, so the function returns false.
(Date also becomes invalid beyond ±8.64e15 ms; stored epoch values are
nowhere near that bound, so the model compares exact integers.) -/

/-- Constant `REFRESH_INTERVAL` of the background coordinator, in ms. -/
def REFRESH_INTERVAL : Nat := 2 * 60 * 1000

/-- Constant `TOKEN_BUFFER` of the background coordinator, in ms. -/
def TOKEN_BUFFER : Nat := 10 * 60 * 1000

/-- Constant `CONFIG.tokenBuffer` of the popup facade, in ms. -/
def popupTokenBuffer : Nat := 5 * 60 * 1000

/-- Function `isTokenExpired`, parameterised by the buffer of the context (ms), the
current time (ms) and the stored `tokenExpiresAt` value (epoch seconds
as a string, or absent). -/
def isTokenExpired (bufferMs nowMs : Nat) (expiresAt : Option String) : Bool :=
  match expiresAt with
  | none => true
  | some s =>
    if s = "" then true
    else
      match jsParseInt s with
      | none => false
      | some e => decide (e * 1000 ≤ (nowMs : Int) + (bufferMs : Int))

/-- Expiry check of the background coordinator (10-minute buffer). -/
def isTokenExpiredBg (nowMs : Nat) (expiresAt : Option String) : Bool :=
  isTokenExpired TOKEN_BUFFER nowMs expiresAt

/-- Expiry check of the popup facade (5-minute buffer). -/
def isTokenExpiredPopup (nowMs : Nat) (expiresAt : Option String) : Bool :=
  isTokenExpired popupTokenBuffer nowMs expiresAt

/-! ## The persistent store

`browser.storage.local` restricted to the three TokenState keys. -/

/-- The persisted TokenState: the `jwtToken`, `refreshToken` and
`tokenExpiresAt` keys of `browser.storage.local`. -/
structure Store where
  jwtToken : Option String
  refreshToken : Option String
  tokenExpiresAt : Option String
deriving DecidableEq, Repr

/-- The store after `browser.storage.local.remove(["jwtToken",
"refreshToken", "tokenExpiresAt"])`: all three keys absent. -/
def Store.empty : Store := ⟨none, none, none⟩

/-- Semantics of one key in a `browser.storage.local.set` call whose
object literal holds a possibly-`undefined` value: keys whose value is
`undefined` are not serialisable and are dropped from the write, so
the previous stored value survives; a present value overwrites. -/
def setKey (old newVal : Option String) : Option String :=
  match newVal with
  | some v => some v
  | none => old

/-- TokenState pairing predicate used by the invariant claims: the
access-token key and the refresh-token key are either both present or
both absent (a JavaScript null deposit counts as absent, as the store
model conflates the two). -/
def paired (st : Store) : Bool :=
  st.jwtToken.isSome == st.refreshToken.isSome

/-! ## The refresh exchange primitive (background coordinator)

`refreshAccessToken` in the background scripts (src/unnamed/part_000
lines 63–118, part_001 lines 47–86): one POST to
`{backendUrl}/auth/refresh`; on `response.ok` it parses the JSON body
and writes the new tokens to `browser.storage.local` itself, returning
`true`; any thrown error (network failure, non-2xx, body on which
`response.json()` throws) lands in the catch block, which removes all
three TokenState keys and returns `false`. -/

/-- Parsed JSON body of a refresh response.  A field which the body
does not carry is `none` (JavaScript `undefined`). -/
structure RefreshBody where
  access_token : Option String
  refresh_token : Option String
  expires_at : Option Int
deriving DecidableEq, Repr

/-- Outcome of the single `fetch` of a refresh exchange: an HTTP
response with its status and its parsed JSON body (`none` when
`response.json()` throws), or a network error. -/
inductive FetchOutcome where
  | response (status : Nat) (body : Option RefreshBody)
  | networkError
deriving DecidableEq, Repr

/-- JavaScript `response.ok`: status in the 2xx range. -/
def respOk (status : Nat) : Bool := 200 ≤ status && status < 300

/-- The background `refreshAccessToken(refreshToken)`, as a function
of the current store and of what the fetch returned.  Mirrors the
source: the success path performs the `browser.storage.local.set`
(fields whose body value is `undefined` are dropped from the write by
`setKey`, `expires_at` is stored via `?.toString()`), every failure
path removes all three keys.  Returns the new store and the boolean
the function returns. -/
def refreshAccessToken (st : Store) (f : FetchOutcome) : Store × Bool :=
  match f with
  | .networkError => (Store.empty, false)
  | .response status body =>
    if respOk status then
      match body with
      | none => (Store.empty, false)
      | some data =>
        (⟨setKey st.jwtToken data.access_token,
          setKey st.refreshToken data.refresh_token,
          setKey st.tokenExpiresAt (data.expires_at.map toString)⟩, true)
    else (Store.empty, false)

/-- The background `checkAndRefreshToken()` (part_000 lines 13–51):
read the three keys; if `jwtToken` or `refreshToken` is falsy, return
without touching the store; otherwise, when `isTokenExpired` holds,
run the refresh exchange (whose store effect is `refreshAccessToken`);
otherwise leave the store alone.  All errors are swallowed. -/
def checkAndRefreshToken (st : Store) (f : FetchOutcome) (nowMs : Nat) : Store :=
  if !truthy st.jwtToken || !truthy st.refreshToken then st
  else if isTokenExpiredBg nowMs st.tokenExpiresAt then
    (refreshAccessToken st f).1
  else st

/-! ## The background message listener

`browser.runtime.onMessage` (part_000 lines 136–152): on
`{action:"refreshToken"}` and on `{action:"checkTokenStatus"}` it runs
`checkAndRefreshToken()` and then answers `{success:true}`; any other
action is ignored (no response, store untouched). -/

/-- The `action` field of an incoming runtime message. -/
inductive MsgAction where
  | refreshToken
  | checkTokenStatus
  | other
deriving DecidableEq, Repr

/-- The `{success: boolean}` response shape of the coordinator. -/
structure MsgResponse where
  success : Bool
deriving DecidableEq, Repr

/-- The background `onMessage` listener: resulting store and the
response sent (if any), given the incoming action, the starting store
and the fetch outcome a triggered refresh exchange would see. -/
def onMessage (act : MsgAction) (st : Store) (f : FetchOutcome) (nowMs : Nat) :
    Store × Option MsgResponse :=
  match act with
  | .refreshToken => (checkAndRefreshToken st f nowMs, some ⟨true⟩)
  | .checkTokenStatus => (checkAndRefreshToken st f nowMs, some ⟨true⟩)
  | .other => (st, none)

/-! ## The popup Session Facade (src/popup.js)

The popup keeps a module-level in-memory copy of the token triple
(`state.jwtToken`, `state.refreshToken`, `state.tokenExpiresAt`; the
unrelated `lastCreatedRecipeId` UI field is not part of TokenState and
is not modelled). -/

/-- In-memory token cache of the popup. -/
structure PState where
  jwtToken : Option String
  refreshToken : Option String
  tokenExpiresAt : Option String
deriving DecidableEq, Repr

/-- Semantics of `Object.assign(state, await browser.storage.local.get([...]))`:
`get` returns only the keys present in storage, so an absent key
leaves the in-memory field at its previous value, while a present key
overwrites it. -/
def assignFromStore (p : PState) (s : Store) : PState :=
  ⟨setKey p.jwtToken s.jwtToken,
   setKey p.refreshToken s.refreshToken,
   setKey p.tokenExpiresAt s.tokenExpiresAt⟩

/-- Function `refreshAccessToken()` of the popup (popup.js lines 224–253): throw
(caught, returning `false`, with cache and store untouched) when no
refresh token is cached; otherwise one fetch of the refresh endpoint.
On `response.ok` it assigns the body fields into the cache
(`Object.assign` with an explicit object literal, so even `undefined`
fields overwrite) and then persists the cache with
`browser.storage.local.set(state)` (where `undefined` fields are
dropped from the write).  Every failure path returns `false` leaving
cache and store as they were — unlike the background primitive, this
one does not clear the store on failure. -/
def refreshAccessTokenPopup (p : PState) (s : Store) (f : FetchOutcome) :
    PState × Store × Bool :=
  if !truthy p.refreshToken then (p, s, false)
  else
    match f with
    | .networkError => (p, s, false)
    | .response status body =>
      if respOk status then
        match body with
        | none => (p, s, false)
        | some data =>
          let p1 : PState :=
            ⟨data.access_token, data.refresh_token,
             data.expires_at.map toString⟩
          let s1 : Store :=
            ⟨setKey s.jwtToken p1.jwtToken,
             setKey s.refreshToken p1.refreshToken,
             setKey s.tokenExpiresAt p1.tokenExpiresAt⟩
          (p1, s1, true)
      else (p, s, false)

/-- Function `handleLogout()` of the popup (popup.js lines 290–304): remove the
three TokenState keys from the store and null the cached fields. -/
def handleLogout : PState × Store := (⟨none, none, none⟩, Store.empty)

/-- Environment of one `ensureValidToken()` run: what the message to
the background coordinator produced — `none` when `sendMessage` threw
(store untouched), `some (resp, storeAfterBg)` when the coordinator
answered `resp` leaving the store at `storeAfterBg` — and the fetch
outcome a direct fallback refresh would see. -/
structure EnsureEnv where
  bg : Option (MsgResponse × Store)
  direct : FetchOutcome

/-- Fallback tail of `ensureValidToken()`: the direct
`refreshAccessToken()` call; on failure, `handleLogout()` and
`false`. -/
def ensureFallback (p : PState) (s : Store) (direct : FetchOutcome) :
    PState × Store × Bool :=
  match refreshAccessTokenPopup p s direct with
  | (p1, s1, true) => (p1, s1, true)
  | (_, _, false) =>
    let (p1, s1) := handleLogout
    (p1, s1, false)

/-- Function `ensureValidToken()` of the popup (popup.js lines 256–287): if a
token is cached and not expiring (5-minute buffer), succeed without
touching anything.  Otherwise step 1 asks the background coordinator;
on a `{success:true}` answer the cache is reloaded from the store and,
if an access token is now present, the call succeeds.  In every other
case step 2 falls back to a direct refresh exchange, logging out on
its failure. -/
def ensureValidToken (p : PState) (s : Store) (nowMs : Nat) (env : EnsureEnv) :
    PState × Store × Bool :=
  if truthy p.jwtToken && !isTokenExpiredPopup nowMs p.tokenExpiresAt then
    (p, s, true)
  else
    match env.bg with
    | some (r, sBg) =>
      if r.success then
        let p1 := assignFromStore p sBg
        if truthy p1.jwtToken then (p1, sBg, true)
        else ensureFallback p1 sBg env.direct
      else ensureFallback p sBg env.direct
    | none => ensureFallback p s env.direct

/-! ## The authenticated backend call

`sendToEndpoint(data)` (popup.js lines 307–349). -/

/-- Parsed body of an `/extract-from-html` response, reduced to the
only field the popup reads (`data.id`). -/
structure RecipeData where
  id : Option String
deriving DecidableEq, Repr

/-- Outcome of the `/extract-from-html` fetch: status plus the parsed
JSON body (`none` when `JSON.parse(responseText)` throws — tolerated,
surfacing null data), or a network error (the fetch itself throws). -/
inductive ExtractOutcome where
  | response (status : Nat) (body : Option RecipeData)
  | networkError
deriving DecidableEq, Repr

/-- The `{success, status?, data?, error?}` result of
`sendToEndpoint`. -/
structure SendResult where
  success : Bool
  status : Option Nat
  data : Option RecipeData
  error : Option String
deriving DecidableEq, Repr

/-- Error message thrown on a 401/403 response. -/
def authFailedMsg : String := "API authentication failed. Check console for details."

/-- Function `sendToEndpoint(data)` of the popup: first `ensureValidToken()`
(aborting with an authentication error when it returns `false`), then
the authenticated POST.  Status 401 or 403 throws the authentication
error; any other non-2xx throws a generic HTTP error; on 2xx the body
is parsed, a parse failure degrading to `null` data.  All throws are
caught by the outer catch, which returns `{success:false, error}`.
The 401/403 branch deliberately does not call `handleLogout()` (the
call is commented out in the source), so neither cache nor store is
touched after `ensureValidToken`. -/
def sendToEndpoint (p : PState) (s : Store) (nowMs : Nat) (env : EnsureEnv)
    (x : ExtractOutcome) : PState × Store × SendResult :=
  match ensureValidToken p s nowMs env with
  | (p1, s1, false) =>
    (p1, s1, ⟨false, none, none, some "Authentication failed - please login again"⟩)
  | (p1, s1, true) =>
    match x with
    | .networkError =>
      (p1, s1, ⟨false, none, none, some "network error"⟩)
    | .response status body =>
      if status = 401 || status = 403 then
        (p1, s1, ⟨false, none, none, some authFailedMsg⟩)
      else if !respOk status then
        (p1, s1, ⟨false, none, none, some ("HTTP error! status: " ++ toString status)⟩)
      else
        (p1, s1, ⟨true, some status, body, none⟩)

/-! ## The login poll loop

`handleLogin()` (popup.js lines 157–213): after opening the auth tab,
a `setInterval` callback polls the `localStorage` of the tab every
`CONFIG.checkInterval` (2000 ms).  Each tick increments `attempts` and
runs `browser.tabs.executeScript`; that call may throw (tab closed,
injection refused), which is caught and the tick falls through to the
attempt-ceiling check.  When the probed object carries a truthy
`jwtToken`, the three fields are written to the store as they are,
polling stops and the tab close is attempted.  When
`attempts >= CONFIG.authTimeout` (30), polling stops, the timeout
status is shown and the tab close is attempted. -/

/-- Constant `CONFIG.authTimeout`: the poll attempt ceiling. -/
def authTimeout : Nat := 30

/-- Constant `CONFIG.checkInterval`: the poll period in ms. -/
def checkIntervalMs : Nat := 2000

/-- The token material one `executeScript` probe reads out of the auth
auth tab (each field `none` when `getItem` returned
null). -/
structure TabTokens where
  jwtToken : Option String
  refreshToken : Option String
  expiresAt : Option String
deriving DecidableEq, Repr

/-- Observable outcome of one poll run: total attempts made, the store
commit on success (`none` on timeout), whether the timeout status was
shown, and whether closing the tab was attempted. -/
structure PollOutcome where
  attempts : Nat
  committed : Option Store
  timedOut : Bool
  tabCloseAttempted : Bool
  statusMsg : String
deriving DecidableEq, Repr

/-- The timeout status message shown by `handleLogin`. -/
def oauthTimeoutMsg : String := "OAuth timeout - please try again"

/-- One-success outcome: tokens found on attempt `a`, committed as
they are, interval cleared, tab close attempted. -/
def pollCommit (a : Nat) (t : TabTokens) : PollOutcome :=
  ⟨a, some ⟨t.jwtToken, t.refreshToken, t.expiresAt⟩, false, true,
   "Authentication successful!"⟩

/-- Ceiling outcome: interval cleared after attempt `a`, timeout
status shown, tab close attempted. -/
def pollTimeout (a : Nat) : PollOutcome :=
  ⟨a, none, true, true, oauthTimeoutMsg⟩

/-- The poll loop body, one tick per recursion step.  `probe k` is
what the `k`-th `executeScript` returns (`none` when it throws);
`maxAttempts` mirrors `CONFIG.authTimeout`.  `fuel` only bounds the
recursion; callers pass `fuel ≥ maxAttempts - attempts`, which makes
the fuel-exhausted fallback unreachable. -/
def pollGo (probe : Nat → Option TabTokens) (maxAttempts : Nat) :
    Nat → Nat → PollOutcome
  | attempts, 0 => pollTimeout attempts
  | attempts, fuel + 1 =>
    match probe (attempts + 1) with
    | some t =>
      if truthy t.jwtToken then pollCommit (attempts + 1) t
      else if attempts + 1 ≥ maxAttempts then pollTimeout (attempts + 1)
      else pollGo probe maxAttempts (attempts + 1) fuel
    | none =>
      if attempts + 1 ≥ maxAttempts then pollTimeout (attempts + 1)
      else pollGo probe maxAttempts (attempts + 1) fuel

/-- The whole poll run of `handleLogin`: attempts start at 0 with the
ceiling `maxAttempts`. -/
def runPoll (probe : Nat → Option TabTokens) (maxAttempts : Nat) : PollOutcome :=
  pollGo probe maxAttempts 0 maxAttempts

/-! ## The auth-success push commit

src/unnamed/part_003 lines 83–109: the global message listener of that popup
listener; on a `{type:"EXTENSION_AUTH_SUCCESS"}` message it stores
`message.tokens.jwtToken / refreshToken / tokenExpiresAt` into the
three store keys unconditionally (no field is checked). -/

/-- The `tokens` payload of an `EXTENSION_AUTH_SUCCESS` message. -/
structure AuthTokens where
  jwtToken : Option String
  refreshToken : Option String
  tokenExpiresAt : Option String
deriving DecidableEq, Repr

/-- Store write performed by the `EXTENSION_AUTH_SUCCESS` listener. -/
def authSuccessCommit (tokens : AuthTokens) : Store :=
  ⟨tokens.jwtToken, tokens.refreshToken, tokens.tokenExpiresAt⟩

/-! ## The periodic-refresh timer

`setupPeriodicRefresh()` (part_000 lines 121–129) with the module
variable `let refreshTimer = null`: clear any previously armed
interval, then arm a fresh one and remember its id. -/

/-- Timer bookkeeping of the background context: the set of
live interval ids (with a counter supplying fresh ids) plus the
module-level `refreshTimer` variable. -/
structure TimerState where
  nextId : Nat
  active : List Nat
  refreshTimer : Option Nat
deriving DecidableEq, Repr

/-- The timer state when the background script loads: no interval
armed, `refreshTimer = null`. -/
def initialTimerState : TimerState := ⟨0, [], none⟩

/-- Call `clearInterval(id)`: the interval with that id stops firing. -/
def clearIntervalTS (st : TimerState) (id : Nat) : TimerState :=
  { st with active := st.active.filter (fun i => i ≠ id) }

/-- Call `setInterval(...)`: a fresh interval starts firing; returns its
id. -/
def setIntervalTS (st : TimerState) : TimerState × Nat :=
  ({ st with nextId := st.nextId + 1, active := st.nextId :: st.active }, st.nextId)

/-- Function `setupPeriodicRefresh()`: clear the remembered interval if one is
armed, then arm a new one and remember it. -/
def setupPeriodicRefresh (st : TimerState) : TimerState :=
  let st1 :=
    match st.refreshTimer with
    | some t => clearIntervalTS st t
    | none => st
  let (st2, id) := setIntervalTS st1
  { st2 with refreshTimer := some id }

/-! ## Theorems -/

/-- C1 counterexample: the refresh-exchange primitive does NOT leave
persistence to the caller — on a 2xx response `refreshAccessToken`
writes the new tokens to the store itself, so the store after the call
differs from the store before it. -/
theorem refresh_primitive_persists_counterexample :
    ¬ ((refreshAccessToken ⟨some "old", some "oldr", some "100"⟩
        (.response 200 (some ⟨some "newA", some "newR", some 9999⟩))).1 =
       ⟨some "old", some "oldr", some "100"⟩) := by decide

/-- C1 (amended): on every 2xx response whose body carries the new
access token, refresh token and expiry, the refresh-exchange primitive
itself writes them to the persistent store (expiry via `toString`) and
returns `true` to its caller; the caller performs no further write. -/
theorem refresh_primitive_writes_store_on_success (st : Store) (status : Nat)
    (a r : String) (e : Int) (h : respOk status = true) :
    refreshAccessToken st (.response status (some ⟨some a, some r, some e⟩)) =
      (⟨some a, some r, some (toString e)⟩, true) := by
  simp [refreshAccessToken, h, setKey]

/-- Witness for C1 (amended) at a concrete store and response. -/
theorem refresh_primitive_writes_store_on_success_witness :
    refreshAccessToken Store.empty (.response 200 (some ⟨some "a", some "r", some 9⟩)) =
      (⟨some "a", some "r", some (toString (9 : Int))⟩, true) :=
  refresh_primitive_writes_store_on_success Store.empty 200 "a" "r" 9 (by decide)

/-- C2 counterexample: the login-poll commit checks only the deposited
access token, so a tab depositing an access token with a null refresh
token makes the poll persist a TokenState whose access token is
present while the refresh token is absent — the pairing invariant is
violated by that write. -/
theorem login_commit_unpaired_counterexample :
    ((runPoll (fun _ => some ⟨some "a", none, none⟩) authTimeout).committed.map paired) =
      some false := by decide

/-- C2 (amended): the refresh and logout paths do keep the pairing —
a failed refresh exchange clears both tokens, a successful one whose
body carries both tokens persists both, and logout clears both — but
the login-poll commit and the EXTENSION_AUTH_SUCCESS push persist the
deposited fields after checking only the access token (or nothing at
all), so a deposit carrying an access token without a refresh token
persists an unpaired TokenState. -/
theorem token_pairing_per_path :
    (∀ st f, (refreshAccessToken st f).2 = false →
      (refreshAccessToken st f).1 = Store.empty) ∧
    (∀ st status a r e, respOk status = true →
      paired (refreshAccessToken st (.response status (some ⟨some a, some r, e⟩))).1 = true) ∧
    handleLogout.2 = Store.empty ∧
    paired (authSuccessCommit ⟨some "b", none, none⟩) = false ∧
    ((runPoll (fun _ => some ⟨some "c", none, none⟩) authTimeout).committed.map paired =
      some false) := by
  refine ⟨?_, ?_, rfl, by decide, by decide⟩
  · intro st f h
    match f with
    | .networkError => rfl
    | .response status body =>
      by_cases hok : respOk status
      · match body with
        | none => simp [refreshAccessToken, hok]
        | some d => simp [refreshAccessToken, hok] at h
      · simp [refreshAccessToken, hok]
  · intro st status a r e h
    simp [refreshAccessToken, h, setKey, paired]

/-- Witness for C2 (amended) at concrete stores and responses. -/
theorem token_pairing_per_path_witness :
    (refreshAccessToken Store.empty (.response 500 none)).1 = Store.empty ∧
    paired (refreshAccessToken Store.empty
      (.response 200 (some ⟨some "a", some "r", some 1⟩))).1 = true :=
  ⟨token_pairing_per_path.1 Store.empty (.response 500 none) (by decide),
   token_pairing_per_path.2.1 Store.empty 200 "a" "r" (some 1) (by decide)⟩

/-- C3: every refresh exchange of the background coordinator that
fails — a non-2xx response or a network error — removes all three
TokenState keys from the store, leaving TokenState fully absent. -/
theorem refresh_failure_clears_token_state (st : Store) (status : Nat)
    (body : Option RefreshBody) (h : respOk status = false) :
    (refreshAccessToken st (.response status body)).1 = Store.empty ∧
    (refreshAccessToken st .networkError).1 = Store.empty :=
  ⟨by simp [refreshAccessToken, h], rfl⟩

/-- Witness for C3 at a concrete store and a 401 response. -/
theorem refresh_failure_clears_token_state_witness :
    (refreshAccessToken ⟨some "t", some "r", some "1"⟩ (.response 401 none)).1 =
      Store.empty :=
  (refresh_failure_clears_token_state ⟨some "t", some "r", some "1"⟩ 401 none (by decide)).1

/-- C4: an authenticated `sendToEndpoint` call entered with a cached,
non-expiring access token that receives a 401 or 403 response returns
a failure result carrying the authentication error message, and both
the in-memory token cache and the persistent store are exactly as they
were — no logout or token clearing happens on that path. -/
theorem auth_rejection_preserves_token_state (p : PState) (s : Store) (nowMs : Nat)
    (env : EnsureEnv) (status : Nat) (body : Option RecipeData)
    (hTok : truthy p.jwtToken = true)
    (hFresh : isTokenExpiredPopup nowMs p.tokenExpiresAt = false)
    (hSt : status = 401 ∨ status = 403) :
    sendToEndpoint p s nowMs env (.response status body) =
      (p, s, ⟨false, none, none, some authFailedMsg⟩) := by
  have hEnsure : ensureValidToken p s nowMs env = (p, s, true) := by
    simp [ensureValidToken, hTok, hFresh]
  rcases hSt with h | h <;> subst h <;> simp [sendToEndpoint, hEnsure]

/-- Witness for C4 at a concrete cache, store and 403 response. -/
theorem auth_rejection_preserves_token_state_witness :
    sendToEndpoint ⟨some "t", some "r", some "9999999999"⟩
      ⟨some "t", some "r", some "9999999999"⟩ 0 ⟨none, .networkError⟩
      (.response 403 none) =
      (⟨some "t", some "r", some "9999999999"⟩,
       ⟨some "t", some "r", some "9999999999"⟩,
       ⟨false, none, none, some authFailedMsg⟩) :=
  auth_rejection_preserves_token_state _ _ 0 _ 403 none (by decide) (by decide)
    (Or.inr rfl)

/-- C5: with the buffer of each context (10 minutes in the background
coordinator, 5 minutes in the popup facade), `isTokenExpired` is true
when `tokenExpiresAt` is absent; for a stored expiry parsing to
`now + B - 1` epoch seconds it is true; for `now + B + 1` it is false
(`B` the buffer in seconds: 600 and 300). -/
theorem expiry_buffer_correct (nowSec : Nat) (s : String) (e : Int)
    (hp : jsParseInt s = some e) :
    (isTokenExpiredBg (nowSec * 1000) none = true ∧
     isTokenExpiredPopup (nowSec * 1000) none = true) ∧
    ((e = (nowSec : Int) + 600 - 1 → isTokenExpiredBg (nowSec * 1000) (some s) = true) ∧
     (e = (nowSec : Int) + 600 + 1 → isTokenExpiredBg (nowSec * 1000) (some s) = false)) ∧
    ((e = (nowSec : Int) + 300 - 1 → isTokenExpiredPopup (nowSec * 1000) (some s) = true) ∧
     (e = (nowSec : Int) + 300 + 1 → isTokenExpiredPopup (nowSec * 1000) (some s) = false)) := by
  have h0 : jsParseInt "" = none := by decide
  have hs : s ≠ "" := by
    intro h
    rw [h, h0] at hp
    exact Option.noConfusion hp
  refine ⟨⟨rfl, rfl⟩, ⟨?_, ?_⟩, ⟨?_, ?_⟩⟩ <;> intro he <;>
    simp [isTokenExpiredBg, isTokenExpiredPopup, isTokenExpired, hs, hp,
      TOKEN_BUFFER, popupTokenBuffer] <;>
    omega

/-- Witness for C5: at `now = 1000` s, expiry `1599` is inside the
10-minute buffer and expiry `1301` is outside the 5-minute buffer. -/
theorem expiry_buffer_correct_witness :
    isTokenExpiredBg (1000 * 1000) (some "1599") = true ∧
    isTokenExpiredPopup (1000 * 1000) (some "1301") = false :=
  ⟨(expiry_buffer_correct 1000 "1599" 1599 (by decide)).2.1.1 (by norm_num),
   (expiry_buffer_correct 1000 "1301" 1301 (by decide)).2.2.2 (by norm_num)⟩

/-- One `setupPeriodicRefresh` call on a state whose live intervals
are exactly the remembered one leaves a single live interval, the
fresh one, remembered in `refreshTimer`. -/
theorem setupPeriodicRefresh_active (st : TimerState)
    (hInv : st.active = st.refreshTimer.toList) :
    (setupPeriodicRefresh st).active = [st.nextId] ∧
    (setupPeriodicRefresh st).refreshTimer = some st.nextId := by
  cases h : st.refreshTimer with
  | none =>
    rw [h] at hInv
    simp only [Option.toList_none] at hInv
    simp [setupPeriodicRefresh, h, setIntervalTS, hInv]
  | some t =>
    rw [h] at hInv
    simp only [Option.toList_some] at hInv
    simp [setupPeriodicRefresh, h, clearIntervalTS, setIntervalTS, hInv]

/-- Iterating `setupPeriodicRefresh` from script load keeps the live
intervals exactly the remembered one. -/
theorem iterate_setup_inv (n : Nat) :
    ((setupPeriodicRefresh)^[n] initialTimerState).active =
      ((setupPeriodicRefresh)^[n] initialTimerState).refreshTimer.toList := by
  induction n with
  | zero => rfl
  | succ m ih =>
    rw [Function.iterate_succ_apply']
    obtain ⟨h1, h2⟩ := setupPeriodicRefresh_active _ ih
    rw [h1, h2]
    rfl

/-- C6: `setupPeriodicRefresh` is idempotent — after any non-empty
sequence of calls from script load exactly one repeating interval is
live, because each call clears the previously armed interval before
arming a new one. -/
theorem setup_periodic_refresh_idempotent (n : Nat) (h : 1 ≤ n) :
    ((setupPeriodicRefresh)^[n] initialTimerState).active.length = 1 := by
  obtain ⟨m, rfl⟩ : ∃ m, n = m + 1 := ⟨n - 1, by omega⟩
  rw [Function.iterate_succ_apply']
  obtain ⟨h1, _⟩ := setupPeriodicRefresh_active _ (iterate_setup_inv m)
  rw [h1]
  rfl

/-- Witness for C6: two consecutive setup calls leave one live
interval. -/
theorem setup_periodic_refresh_idempotent_witness :
    ((setupPeriodicRefresh)^[2] initialTimerState).active.length = 1 :=
  setup_periodic_refresh_idempotent 2 (by decide)

/-- Probe outcome carrying no usable token: the `executeScript` call
threw, or the probed object has a falsy `jwtToken`. -/
def noDeposit : Option TabTokens → Bool
  | some t => !truthy t.jwtToken
  | none => true

/-- Poll loop with a tokenless probe: from any attempt count below the
ceiling, with enough fuel, the loop ends in the timeout outcome at
exactly the ceiling. -/
theorem pollGo_timeout (probe : Nat → Option TabTokens)
    (hno : ∀ k, noDeposit (probe k) = true) :
    ∀ fuel attempts maxA, attempts < maxA → maxA ≤ attempts + fuel →
      pollGo probe maxA attempts fuel = pollTimeout maxA := by
  intro fuel
  induction fuel with
  | zero =>
    intro attempts maxA h1 h2
    exact absurd h2 (by omega)
  | succ f ih =>
    intro attempts maxA h1 h2
    have hstep := hno (attempts + 1)
    cases hpk : probe (attempts + 1) with
    | some t =>
      rw [hpk] at hstep
      have ht : truthy t.jwtToken = false := by
        simpa [noDeposit] using hstep
      by_cases hge : attempts + 1 ≥ maxA
      · have hstep2 : pollGo probe maxA attempts (f + 1) = pollTimeout (attempts + 1) := by
          simp [pollGo, hpk, ht, hge]
        have hEq : attempts + 1 = maxA := by omega
        rw [hstep2, hEq]
      · simp only [pollGo, hpk, ht, Bool.false_eq_true, if_false, if_neg hge]
        exact ih (attempts + 1) maxA (by omega) (by omega)
    | none =>
      by_cases hge : attempts + 1 ≥ maxA
      · have hstep2 : pollGo probe maxA attempts (f + 1) = pollTimeout (attempts + 1) := by
          simp [pollGo, hpk, hge]
        have hEq : attempts + 1 = maxA := by omega
        rw [hstep2, hEq]
      · simp only [pollGo, hpk, if_neg hge]
        exact ih (attempts + 1) maxA (by omega) (by omega)

/-- C7: a login poll against a tab that never deposits a usable token
stops after exactly the configured ceiling of 30 attempts, shows the
timeout message, attempts to close the tab and commits nothing. -/
theorem login_poll_times_out (probe : Nat → Option TabTokens)
    (hno : ∀ k, noDeposit (probe k) = true) :
    runPoll probe authTimeout =
      { attempts := 30, committed := none, timedOut := true,
        tabCloseAttempted := true, statusMsg := oauthTimeoutMsg } :=
  pollGo_timeout probe hno authTimeout 0 authTimeout (by decide) (by decide)

/-- Witness for C7: the always-throwing probe times out after 30
attempts. -/
theorem login_poll_times_out_witness :
    runPoll (fun _ => none) authTimeout =
      { attempts := 30, committed := none, timedOut := true,
        tabCloseAttempted := true, statusMsg := oauthTimeoutMsg } :=
  login_poll_times_out (fun _ => none) (fun _ => rfl)

/-- C8: the `refreshToken` and `checkTokenStatus` message types have
identical effect — for every starting store, fetch outcome and time,
both run the same check-and-refresh and send the same response. -/
theorem refresh_and_check_messages_equivalent (st : Store) (f : FetchOutcome)
    (nowMs : Nat) :
    onMessage .refreshToken st f nowMs = onMessage .checkTokenStatus st f nowMs := rfl

/-- C9: for both coordinator message types the response is always
`{success: true}`, whatever the store and however the refresh exchange
went; in particular a refresh that succeeded and one that failed and
cleared the store produce different stores but the identical response,
so the caller cannot learn the outcome from the response alone. -/
theorem coordinator_always_reports_success :
    (∀ st f nowMs, (onMessage .refreshToken st f nowMs).2 = some ⟨true⟩ ∧
       (onMessage .checkTokenStatus st f nowMs).2 = some ⟨true⟩) ∧
    ((onMessage .refreshToken ⟨some "t", some "r", some "0"⟩
        (.response 200 (some ⟨some "a2", some "r2", some 9⟩)) 0).2 =
      (onMessage .refreshToken ⟨some "t", some "r", some "0"⟩
        (.response 401 none) 0).2 ∧
     (onMessage .refreshToken ⟨some "t", some "r", some "0"⟩
        (.response 200 (some ⟨some "a2", some "r2", some 9⟩)) 0).1 ≠
      (onMessage .refreshToken ⟨some "t", some "r", some "0"⟩
        (.response 401 none) 0).1) :=
  ⟨fun _ _ _ => ⟨rfl, rfl⟩, by decide, by decide⟩

/-- C10: a present but non-numeric `tokenExpiresAt` (one on which
`parseInt` yields NaN) makes `isTokenExpired` return false in both
contexts — the token never expires; the fail-safe treated-as-expired
default fires only for an absent or empty value. -/
theorem malformed_expiry_treated_as_never_expiring (nowMs : Nat) (s : String)
    (hne : s ≠ "") (hnan : jsParseInt s = none) :
    (isTokenExpiredBg nowMs (some s) = false ∧
     isTokenExpiredPopup nowMs (some s) = false) ∧
    (isTokenExpiredBg nowMs none = true ∧
     isTokenExpiredPopup nowMs none = true) ∧
    (isTokenExpiredBg nowMs (some "") = true ∧
     isTokenExpiredPopup nowMs (some "") = true) := by
  refine ⟨⟨?_, ?_⟩, ⟨rfl, rfl⟩, ⟨?_, ?_⟩⟩ <;>
    simp [isTokenExpiredBg, isTokenExpiredPopup, isTokenExpired, hne, hnan]

/-- Witness for C10 at a concrete malformed expiry string. -/
theorem malformed_expiry_treated_as_never_expiring_witness :
    isTokenExpiredBg 0 (some "garbage") = false :=
  (malformed_expiry_treated_as_never_expiring 0 "garbage" (by decide) (by decide)).1.1

end Resept
